import Mathlib

/-!
Verification development for the session lifecycle subsystem of the
twitch_clipper backend: a shallow embedding of
`backend/app/database/manager.py` (persistent store),
`backend/app/session.py` (workspace), `backend/app/session_manager.py`
(façade and background-task registry) and the session API routes in
`backend/app/api/session.py`, together with theorems about the embedded
operations.

Modelling conventions:
- the SQLite table is a `List SessionData` (primary-key uniqueness is the
  store's concern; `create_session` refuses duplicate ids exactly as the
  `INSERT` raises `IntegrityError`);
- epoch-second timestamps are `Int` (the code uses floats only as opaque
  ordered values);
- each store operation is written as an inner body in `Except` (the code
  that can raise) plus an outer total wrapper (the `try/except` of the
  source); a `fault : Bool` argument injects an arbitrary internal
  exception, and the connection-level `rollback` of `get_connection`
  means a faulted body leaves the table unchanged;
- the filesystem is the list of existing directory paths; `rmtree p`
  removes `p` and every path below it;
- `tempfile.mkdtemp` guarantees a directory name that does not already
  exist; the embedding realises that guarantee with a deterministic name
  longer than every existing path.
-/

namespace TC

/-- Opaque result record stored in a session's `results` JSON array. -/
abbrev ResultEntry := String

/-- Persisted session record, from `app/database/models.py` (`SessionData`). -/
structure SessionData where
  session_id : String
  created_at : Int
  status : String
  results : List ResultEntry
  current_step : String
  progress : Int
  last_activity : Int
  error : Option String
deriving Repr, DecidableEq

/-- The persisted `sessions` table. -/
abbrev DB := List SessionData

/-- Store-level exceptions of `app/database/manager.py`. -/
inductive DBErr where
  | sqlite
  | integrity
deriving Repr, DecidableEq

namespace DatabaseManager

/-- Schema creation (`DatabaseManager.init_database`): the one store entry
point with no `try/except`, so an internal error propagates. -/
def init_database (fault : Bool) : Except DBErr Unit :=
  if fault then .error .sqlite else .ok ()

/-- Body of `create_session`: `INSERT` raises `IntegrityError` on a
duplicate primary key, and any other internal error is `DBErr.sqlite`. -/
def create_sessionE (db : DB) (sd : SessionData) (fault : Bool) :
    Except DBErr (DB × Bool) :=
  if fault then .error .sqlite
  else if db.any (fun r => r.session_id == sd.session_id) then .error .integrity
  else .ok (db ++ [sd], true)

/-- `DatabaseManager.create_session`: the wrapper catches every exception
and reports `false` with the table unchanged. -/
def create_session (db : DB) (sd : SessionData) (fault : Bool) : DB × Bool :=
  match create_sessionE db sd fault with
  | .error _ => (db, false)
  | .ok r => r

/-- Body of `get_session`: `SELECT * WHERE session_id = ?`. -/
def get_sessionE (db : DB) (id : String) (fault : Bool) :
    Except DBErr (Option SessionData) :=
  if fault then .error .sqlite
  else .ok (db.find? (fun r => r.session_id == id))

/-- `DatabaseManager.get_session`: absence and failure both map to `none`. -/
def get_session (db : DB) (id : String) (fault : Bool) : Option SessionData :=
  match get_sessionE db id fault with
  | .error _ => none
  | .ok r => r

/-- The `UPDATE ... WHERE session_id = ?` row transformer of
`update_session`: replaces every mutable column, leaves the key and
`created_at` alone. -/
def applyUpdate (sd r : SessionData) : SessionData :=
  if r.session_id == sd.session_id then
    { r with
      status := sd.status
      results := sd.results
      current_step := sd.current_step
      progress := sd.progress
      last_activity := sd.last_activity
      error := sd.error }
  else r

/-- Body of `update_session`; the returned flag is `rowcount > 0`. -/
def update_sessionE (db : DB) (sd : SessionData) (fault : Bool) :
    Except DBErr (DB × Bool) :=
  if fault then .error .sqlite
  else .ok (db.map (applyUpdate sd), db.any (fun r => r.session_id == sd.session_id))

/-- `DatabaseManager.update_session` with its catch-all wrapper. -/
def update_session (db : DB) (sd : SessionData) (fault : Bool) : DB × Bool :=
  match update_sessionE db sd fault with
  | .error _ => (db, false)
  | .ok r => r

/-- Body of `update_last_activity`: single-column touch. -/
def update_last_activityE (db : DB) (id : String) (now : Int) (fault : Bool) :
    Except DBErr (DB × Bool) :=
  if fault then .error .sqlite
  else .ok (db.map (fun r => if r.session_id == id then { r with last_activity := now } else r),
            db.any (fun r => r.session_id == id))

/-- `DatabaseManager.update_last_activity` with its catch-all wrapper. -/
def update_last_activity (db : DB) (id : String) (now : Int) (fault : Bool) : DB × Bool :=
  match update_last_activityE db id now fault with
  | .error _ => (db, false)
  | .ok r => r

/-- Body of `add_result_to_session`: read the row's `results`, append,
write back, touching `last_activity`; `false` when the row is absent. -/
def add_result_to_sessionE (db : DB) (id : String) (res : ResultEntry) (now : Int)
    (fault : Bool) : Except DBErr (DB × Bool) :=
  if fault then .error .sqlite
  else
    match db.find? (fun r => r.session_id == id) with
    | some _ =>
        .ok (db.map (fun r =>
              if r.session_id == id then
                { r with results := r.results ++ [res], last_activity := now }
              else r),
             db.any (fun r => r.session_id == id))
    | none => .ok (db, false)

/-- `DatabaseManager.add_result_to_session` with its catch-all wrapper. -/
def add_result_to_session (db : DB) (id : String) (res : ResultEntry) (now : Int)
    (fault : Bool) : DB × Bool :=
  match add_result_to_sessionE db id res now fault with
  | .error _ => (db, false)
  | .ok r => r

/-- Body of `delete_session`; the flag is `rowcount > 0`. -/
def delete_sessionE (db : DB) (id : String) (fault : Bool) :
    Except DBErr (DB × Bool) :=
  if fault then .error .sqlite
  else .ok (db.filter (fun r => !(r.session_id == id)),
            db.any (fun r => r.session_id == id))

/-- `DatabaseManager.delete_session` with its catch-all wrapper. -/
def delete_session (db : DB) (id : String) (fault : Bool) : DB × Bool :=
  match delete_sessionE db id fault with
  | .error _ => (db, false)
  | .ok r => r

/-- Body of `list_sessions`: `ORDER BY last_activity DESC`, and the
`if limit:` truthiness test of the source means `none` and `some 0`
both omit the `LIMIT` clause. -/
def list_sessionsE (db : DB) (limit : Option Nat) (fault : Bool) :
    Except DBErr (List SessionData) :=
  if fault then .error .sqlite
  else
    let sorted := db.mergeSort (fun a b => b.last_activity ≤ a.last_activity)
    match limit with
    | some n => if n = 0 then .ok sorted else .ok (sorted.take n)
    | none => .ok sorted

/-- `DatabaseManager.list_sessions` with its catch-all wrapper. -/
def list_sessions (db : DB) (limit : Option Nat) (fault : Bool) : List SessionData :=
  match list_sessionsE db limit fault with
  | .error _ => []
  | .ok r => r

/-- Body of `cleanup_old_sessions`: `DELETE WHERE created_at < now - max_age`,
returning `rowcount`. -/
def cleanup_old_sessionsE (db : DB) (max_age now : Int) (fault : Bool) :
    Except DBErr (DB × Nat) :=
  if fault then .error .sqlite
  else
    .ok (db.filter (fun r => !(decide (r.created_at < now - max_age))),
         (db.filter (fun r => decide (r.created_at < now - max_age))).length)

/-- `DatabaseManager.cleanup_old_sessions` with its catch-all wrapper. -/
def cleanup_old_sessions (db : DB) (max_age now : Int) (fault : Bool) : DB × Nat :=
  match cleanup_old_sessionsE db max_age now fault with
  | .error _ => (db, 0)
  | .ok r => r

/-- Body of `get_active_sessions_count`: the source runs
`SELECT COUNT(*) FROM sessions` with no status filter. -/
def get_active_sessions_countE (db : DB) (fault : Bool) : Except DBErr Nat :=
  if fault then .error .sqlite else .ok db.length

/-- `DatabaseManager.get_active_sessions_count` with its catch-all wrapper. -/
def get_active_sessions_count (db : DB) (fault : Bool) : Nat :=
  match get_active_sessions_countE db fault with
  | .error _ => 0
  | .ok r => r

/-- Body of `get_processing_sessions_count`:
`SELECT COUNT(*) WHERE status = 'processing'`. -/
def get_processing_sessions_countE (db : DB) (fault : Bool) : Except DBErr Nat :=
  if fault then .error .sqlite
  else .ok (db.filter (fun r => r.status == "processing")).length

/-- `DatabaseManager.get_processing_sessions_count` with its catch-all wrapper. -/
def get_processing_sessions_count (db : DB) (fault : Bool) : Nat :=
  match get_processing_sessions_countE db fault with
  | .error _ => 0
  | .ok r => r

end DatabaseManager

/-- The filesystem seen by the workspace layer: the list of directory
paths that currently exist. -/
abbrev FS := List String

/-- Base directory of `app/session.py` (`BASE_OUTPUT_DIR`). -/
def BASE_OUTPUT_DIR : String := "output"

/-- Directory `q` lies at or below directory `p`. -/
def underDir (p q : String) : Bool :=
  p == q || (p ++ "/").isPrefixOf q

/-- `shutil.rmtree p`: removes `p` and everything below it; on a missing
path nothing is removed (the source guards with `os.path.exists`). -/
def rmtree (fs : FS) (p : String) : FS :=
  fs.filter (fun q => !(underDir p q))

/-- `os.makedirs(p, exist_ok=True)`. -/
def os_makedirs (fs : FS) (p : String) : FS :=
  if fs.contains p then fs else p :: fs

/-- Longest path length present on the filesystem. -/
def maxLen (fs : FS) : Nat :=
  fs.foldr (fun s m => max s.length m) 0

/-- Fresh directory-name suffix: longer than every existing path, hence
new. Stands in for the unique random name drawn by `tempfile.mkdtemp`. -/
def freshName (fs : FS) : String :=
  String.mk (List.replicate (maxLen fs + 1) 'a')

/-- `tempfile.mkdtemp(dir := dir, prefix := pre)`: creates and returns a
uniquely named new subdirectory of `dir`. -/
def mkdtemp (fs : FS) (dir pre : String) : String × FS :=
  let p := dir ++ "/" ++ pre ++ freshName fs
  (p, p :: fs)

/-- Errors raised by workspace operations (`RuntimeError` for use after
cleanup, per `app/session.py`). -/
inductive WsErr where
  | inactive
deriving Repr, DecidableEq

/-- In-memory workspace object, from `app/session.py` (`Session`). The
per-instance mutex serialises the mutating operations; the embedding
applies them atomically. -/
structure Session where
  session_id : String
  output_dir : String
  temp_dirs : List String
  is_active : Bool
deriving Repr, DecidableEq

/-- `Session.__init__`: derives the root directory from the id and
creates it (idempotently). -/
def Session.init (id : String) (fs : FS) : Session × FS :=
  let dir := BASE_OUTPUT_DIR ++ "/" ++ id
  ({ session_id := id, output_dir := dir, temp_dirs := [], is_active := true },
   os_makedirs fs dir)

/-- `Session.cleanup`: on an already-inactive workspace, returns at once;
otherwise removes each tracked temp directory, then the root directory,
then clears `is_active`. -/
def Session.cleanup (s : Session) (fs : FS) : Session × FS :=
  if s.is_active then
    ({ s with is_active := false },
     rmtree (s.temp_dirs.foldl rmtree fs) s.output_dir)
  else (s, fs)

/-- `Session.create_temp_dir`: raises when inactive, otherwise allocates a
fresh subdirectory under the root via `mkdtemp`, tracks it and returns
its path. -/
def Session.create_temp_dir (s : Session) (fs : FS) (pre : String) :
    Except WsErr (String × Session × FS) :=
  if s.is_active then
    let r := mkdtemp fs s.output_dir pre
    .ok (r.1, { s with temp_dirs := s.temp_dirs ++ [r.1] }, r.2)
  else .error .inactive

/-- `Session.remove_temp_dir`: removes and untracks one tracked temp
directory; a no-op on an untracked path. -/
def Session.remove_temp_dir (s : Session) (fs : FS) (d : String) : Session × FS :=
  if s.temp_dirs.contains d then
    ({ s with temp_dirs := s.temp_dirs.filter (fun t => !(t == d)) }, rmtree fs d)
  else (s, fs)

/-- `Session.get_file_path`: raises when inactive, otherwise joins the
name onto the root directory. -/
def Session.get_file_path (s : Session) (name : String) : Except WsErr String :=
  if s.is_active then .ok (s.output_dir ++ "/" ++ name)
  else .error .inactive

/-- Cancellable handle of one running background job (an `asyncio.Task`).
Only its cancellation-requested flag is observable here. -/
structure TaskHandle where
  cancelled : Bool
deriving Repr, DecidableEq

/-- Whole-subsystem state: the persisted table, the module-level workspace
cache `_session_cache`, the task registry `_background_tasks` (session id
to handle index), every handle ever created, and the filesystem. -/
structure Sys where
  db : DB
  cache : List (String × Session)
  tasks : List (String × Nat)
  handles : List TaskHandle
  fs : FS
deriving Repr, DecidableEq

/-- Removal of a key from a dict modelled as an association list. -/
def eraseKey {α : Type} : List (String × α) → String → List (String × α)
  | [], _ => []
  | p :: rest, k => if p.1 == k then eraseKey rest k else p :: eraseKey rest k

/-- Register a background task (`set_background_task`): dict assignment,
replacing any previous registration; the fresh handle starts
uncancelled. -/
def set_background_task (sys : Sys) (id : String) : Sys :=
  { sys with
    handles := sys.handles ++ [{ cancelled := false }]
    tasks := (id, sys.handles.length) :: eraseKey sys.tasks id }

/-- `cancel_background_task`: with a registered handle, request
cancellation on it, drop the registration and report `true`; otherwise a
no-op reporting `false`. -/
def cancel_background_task (sys : Sys) (id : String) : Sys × Bool :=
  match sys.tasks.lookup id with
  | some h =>
      ({ sys with
         handles := sys.handles.set h { cancelled := true }
         tasks := eraseKey sys.tasks id }, true)
  | none => (sys, false)

/-- `remove_background_task`: unregister without cancelling. -/
def remove_background_task (sys : Sys) (id : String) : Sys :=
  { sys with tasks := eraseKey sys.tasks id }

namespace SessionManager

/-- The fresh record built by `SessionManager.create_session`. -/
def newRecord (id : String) (now : Int) : SessionData :=
  { session_id := id
    created_at := now
    status := "active"
    results := []
    current_step := ""
    progress := 0
    last_activity := now
    error := none }

/-- `SessionManager.create_session`: builds the workspace, persists the
record, and only on store success caches the workspace; on store failure
tears the workspace down and raises (modelled as `none`). The generated
UUID and the clock are parameters. -/
def create_session (sys : Sys) (id : String) (now : Int) (fault : Bool) :
    Sys × Option String :=
  let w := (Session.init id sys.fs).1
  let fs1 := (Session.init id sys.fs).2
  let r := DatabaseManager.create_session sys.db (newRecord id now) fault
  if r.2 then
    ({ sys with db := r.1, fs := fs1, cache := (id, w) :: eraseKey sys.cache id },
     some id)
  else
    ({ sys with db := r.1, fs := (Session.cleanup w fs1).2 }, none)

/-- `SessionManager.get_session_data`: straight store read. -/
def get_session_data (sys : Sys) (id : String) (fault : Bool) : Option SessionData :=
  DatabaseManager.get_session sys.db id fault

/-- `SessionManager.session_exists`: consults only the persisted store. -/
def session_exists (sys : Sys) (id : String) (fault : Bool) : Bool :=
  (DatabaseManager.get_session sys.db id fault).isSome

/-- `SessionManager.update_session_status`: fetch the record, set status
and `last_activity`, and overwrite `error` only when the argument is
truthy (neither `None` nor empty), then write the record back. -/
def update_session_status (sys : Sys) (id status : String) (err : Option String)
    (now : Int) (gFault uFault : Bool) : Sys × Bool :=
  match DatabaseManager.get_session sys.db id gFault with
  | none => (sys, false)
  | some sd =>
      let sd1 := { sd with status := status, last_activity := now }
      let sd2 :=
        match err with
        | some e => if e == "" then sd1 else { sd1 with error := some e }
        | none => sd1
      let r := DatabaseManager.update_session sys.db sd2 uFault
      ({ sys with db := r.1 }, r.2)

/-- `SessionManager.update_session_progress`. -/
def update_session_progress (sys : Sys) (id step : String) (progress : Int)
    (now : Int) (gFault uFault : Bool) : Sys × Bool :=
  match DatabaseManager.get_session sys.db id gFault with
  | none => (sys, false)
  | some sd =>
      let sd1 := { sd with current_step := step, progress := progress, last_activity := now }
      let r := DatabaseManager.update_session sys.db sd1 uFault
      ({ sys with db := r.1 }, r.2)

/-- `SessionManager.update_session_results`: full replace of the results
list (used by the process route to reset a session for a new run). -/
def update_session_results (sys : Sys) (id : String) (results : List ResultEntry)
    (now : Int) (gFault uFault : Bool) : Sys × Bool :=
  match DatabaseManager.get_session sys.db id gFault with
  | none => (sys, false)
  | some sd =>
      let sd1 := { sd with results := results, last_activity := now }
      let r := DatabaseManager.update_session sys.db sd1 uFault
      ({ sys with db := r.1 }, r.2)

/-- `SessionManager.add_result_to_session`: store-level atomic append. -/
def add_result_to_session (sys : Sys) (id : String) (res : ResultEntry)
    (now : Int) (fault : Bool) : Sys × Bool :=
  let r := DatabaseManager.add_result_to_session sys.db id res now fault
  ({ sys with db := r.1 }, r.2)

/-- `SessionManager.cleanup_session`: when the workspace is cached, clean
it and evict the cache entry; then delete the persisted record, the store
verdict being the reported success. -/
def cleanup_session (sys : Sys) (id : String) (fault : Bool) : Sys × Bool :=
  let sys1 :=
    match sys.cache.lookup id with
    | some w =>
        { sys with
          fs := (Session.cleanup w sys.fs).2
          cache := eraseKey sys.cache id }
    | none => sys
  let r := DatabaseManager.delete_session sys1.db id fault
  ({ sys1 with db := r.1 }, r.2)

/-- Session statistics reported by `SessionManager.get_session_counts`. -/
structure Counts where
  active_sessions : Nat
  processing_sessions : Nat
  cached_sessions : Nat
deriving Repr, DecidableEq

/-- `SessionManager.get_session_counts`. -/
def get_session_counts (sys : Sys) (aFault pFault : Bool) : Counts :=
  { active_sessions := DatabaseManager.get_active_sessions_count sys.db aFault
    processing_sessions := DatabaseManager.get_processing_sessions_count sys.db pFault
    cached_sessions := sys.cache.length }

end SessionManager

/-- The `DELETE /api/session/cleanup/{id}` route: 404 (`none`) when the
session is unknown, otherwise cancel any background task, then run the
façade cleanup and report its verdict. -/
def api_cleanup_session (sys : Sys) (id : String) (eFault dFault : Bool) :
    Sys × Option Bool :=
  if SessionManager.session_exists sys id eFault then
    let s1 := (cancel_background_task sys id).1
    let r := SessionManager.cleanup_session s1 id dFault
    (r.1, some r.2)
  else (sys, none)

/-! Helper lemmas shared by the claim theorems. -/

theorem applyUpdate_session_id (sd r : SessionData) :
    (DatabaseManager.applyUpdate sd r).session_id = r.session_id := by
  unfold DatabaseManager.applyUpdate
  split <;> rfl

theorem lookup_eraseKey_self {α : Type} (l : List (String × α)) (k : String) :
    (eraseKey l k).lookup k = none := by
  induction l with
  | nil => rfl
  | cons p rest ih =>
      by_cases h : p.1 = k
      · simp [eraseKey, h, ih]
      · have hk : (k == p.1) = false := by
          simp only [beq_eq_false_iff_ne]
          exact fun he => h he.symm
        simp [eraseKey, h, List.lookup, hk, ih]

theorem lookup_eraseKey_ne {α : Type} (l : List (String × α)) (k k' : String)
    (h : k' ≠ k) : (eraseKey l k).lookup k' = l.lookup k' := by
  induction l with
  | nil => rfl
  | cons p rest ih =>
      by_cases hp : p.1 = k
      · have hk : (k' == k) = false := by
          simp only [beq_eq_false_iff_ne]
          exact h
        simp [eraseKey, hp, List.lookup, hk, ih]
      · by_cases hk : k' = p.1
        · simp [eraseKey, hp, List.lookup, hk]
        · simp [eraseKey, hp, List.lookup, hk, ih]

theorem find?_filter_not {α : Type} (l : List α) (p : α → Bool) :
    (l.filter (fun a => !(p a))).find? p = none := by
  induction l with
  | nil => rfl
  | cons a l ih =>
      by_cases h : p a
      · simp [List.filter, h, ih]
      · simp only [Bool.not_eq_true] at h
        simp [List.filter, h, List.find?, ih]

theorem mem_rmtree (fs : FS) (p q : String) :
    q ∈ rmtree fs p ↔ q ∈ fs ∧ underDir p q = false := by
  simp [rmtree, List.mem_filter]

theorem not_mem_rmtree_self (fs : FS) (p : String) : p ∉ rmtree fs p := by
  intro h
  have := (mem_rmtree fs p p).1 h
  simp [underDir] at this

theorem not_mem_rmtree_of_not_mem (fs : FS) (p s : String) (h : s ∉ fs) :
    s ∉ rmtree fs p := by
  intro hmem
  exact h ((mem_rmtree fs p s).1 hmem).1

theorem not_mem_foldl_rmtree_of_not_mem (l : List String) (fs : FS) (s : String)
    (h : s ∉ fs) : s ∉ l.foldl rmtree fs := by
  induction l generalizing fs with
  | nil => exact h
  | cons a l ih => exact ih (rmtree fs a) (not_mem_rmtree_of_not_mem fs a s h)

theorem not_mem_foldl_rmtree_of_mem (l : List String) (fs : FS) (d : String)
    (h : d ∈ l) : d ∉ l.foldl rmtree fs := by
  induction l generalizing fs with
  | nil => cases h
  | cons a l ih =>
      rcases List.mem_cons.1 h with rfl | hmem
      · exact fun hc =>
          not_mem_foldl_rmtree_of_not_mem l (rmtree fs d) d
            (not_mem_rmtree_self fs d) hc
      · exact ih (rmtree fs a) hmem

theorem length_le_maxLen (fs : FS) (s : String) (h : s ∈ fs) :
    s.length ≤ maxLen fs := by
  induction fs with
  | nil => cases h
  | cons a l ih =>
      rcases List.mem_cons.1 h with rfl | hmem
      · exact le_max_left _ _
      · exact le_trans (ih hmem) (le_max_right _ _)

theorem freshName_length (fs : FS) : (freshName fs).length = maxLen fs + 1 := by
  simp [freshName, String.length]

theorem mkdtemp_fresh (fs : FS) (dir pre : String) :
    (mkdtemp fs dir pre).1 ∉ fs := by
  intro h
  have hle : (mkdtemp fs dir pre).1.length ≤ maxLen fs :=
    length_le_maxLen fs _ h
  have hlen : (mkdtemp fs dir pre).1.length
      = dir.length + 1 + pre.length + (maxLen fs + 1) := by
    simp [mkdtemp, String.length_append, freshName_length,
      (by decide : ("/" : String).length = 1)]
  omega

theorem find?_map_applyUpdate (db : DB) (sd2 : SessionData) (id : String)
    (sd : SessionData)
    (h : db.find? (fun r => r.session_id == id) = some sd) :
    (db.map (DatabaseManager.applyUpdate sd2)).find? (fun r => r.session_id == id)
      = some (DatabaseManager.applyUpdate sd2 sd) := by
  induction db with
  | nil => simp [List.find?] at h
  | cons a l ih =>
      by_cases ha : a.session_id = id
      · rw [List.find?_cons_of_pos _ (by simp [ha])] at h
        cases h
        exact List.find?_cons_of_pos _ (by simp [applyUpdate_session_id, ha])
      · rw [List.find?_cons_of_neg _ (by simp [ha])] at h
        rw [List.map_cons,
          List.find?_cons_of_neg _ (by simp [applyUpdate_session_id, ha])]
        exact ih h

theorem forall₂_map_self {α : Type} (R : α → α → Prop) (f : α → α)
    (h : ∀ a, R a (f a)) (l : List α) : List.Forall₂ R l (l.map f) := by
  induction l with
  | nil => exact List.Forall₂.nil
  | cons a l ih => exact List.Forall₂.cons (h a) ih

theorem any_of_find?_eq_some {α : Type} {l : List α} {p : α → Bool} {a : α}
    (h : l.find? p = some a) : l.any p = true :=
  List.any_eq_true.2 ⟨a, List.mem_of_find?_eq_some h, List.find?_some h⟩

theorem get_session_nofault (db : DB) (id : String) :
    DatabaseManager.get_session db id false
      = db.find? (fun r => r.session_id == id) := rfl

theorem mem_os_makedirs_self (fs : FS) (p : String) : p ∈ os_makedirs fs p := by
  unfold os_makedirs
  by_cases h : fs.contains p = true
  · rw [if_pos h]
    simpa using h
  · rw [if_neg h]
    exact List.mem_cons_self p fs

theorem cancel_preserves (s : Sys) (id : String) :
    (cancel_background_task s id).1.db = s.db ∧
    (cancel_background_task s id).1.cache = s.cache ∧
    (cancel_background_task s id).1.fs = s.fs := by
  cases h : s.tasks.lookup id <;> simp [cancel_background_task, h]

theorem cancel_background_task_none (s : Sys) (id : String)
    (h : s.tasks.lookup id = none) : cancel_background_task s id = (s, false) := by
  simp [cancel_background_task, h]

theorem cancel_tasks_lookup_self (s : Sys) (id : String) :
    (cancel_background_task s id).1.tasks.lookup id = none := by
  cases h : s.tasks.lookup id with
  | none => simp [cancel_background_task, h]
  | some v => simp [cancel_background_task, h, lookup_eraseKey_self]

theorem cleanup_session_verdict (s : Sys) (id : String) :
    (SessionManager.cleanup_session s id false).2
      = s.db.any (fun r => r.session_id == id) := by
  unfold SessionManager.cleanup_session
  cases hc : s.cache.lookup id <;>
    simp [DatabaseManager.delete_session, DatabaseManager.delete_sessionE]

theorem cleanup_session_db (s : Sys) (id : String) :
    (SessionManager.cleanup_session s id false).1.db
      = s.db.filter (fun r => !(r.session_id == id)) := by
  unfold SessionManager.cleanup_session
  cases hc : s.cache.lookup id <;>
    simp [DatabaseManager.delete_session, DatabaseManager.delete_sessionE]

theorem cleanup_session_tasks (s : Sys) (id : String) (fault : Bool) :
    (SessionManager.cleanup_session s id fault).1.tasks = s.tasks ∧
    (SessionManager.cleanup_session s id fault).1.handles = s.handles := by
  unfold SessionManager.cleanup_session
  cases hc : s.cache.lookup id <;>
    cases fault <;>
      simp [DatabaseManager.delete_session, DatabaseManager.delete_sessionE]

theorem cleanup_session_cache_lookup (s : Sys) (id : String) (fault : Bool) :
    (SessionManager.cleanup_session s id fault).1.cache.lookup id = none := by
  unfold SessionManager.cleanup_session
  cases hc : s.cache.lookup id with
  | none =>
      cases fault <;>
        simpa [DatabaseManager.delete_session, DatabaseManager.delete_sessionE]
          using hc
  | some w =>
      cases fault <;>
        simp [DatabaseManager.delete_session, DatabaseManager.delete_sessionE,
          lookup_eraseKey_self]

theorem cleanup_session_fault (s : Sys) (id : String) :
    (SessionManager.cleanup_session s id true).2 = false ∧
    (SessionManager.cleanup_session s id true).1.db = s.db := by
  unfold SessionManager.cleanup_session
  cases hc : s.cache.lookup id <;>
    simp [DatabaseManager.delete_session, DatabaseManager.delete_sessionE]

theorem cleanup_session_fs_cached (s : Sys) (id : String) (fault : Bool)
    (w : Session) (hc : s.cache.lookup id = some w) :
    (SessionManager.cleanup_session s id fault).1.fs
      = (Session.cleanup w s.fs).2 := by
  unfold SessionManager.cleanup_session
  cases fault <;>
    simp [hc, DatabaseManager.delete_session, DatabaseManager.delete_sessionE]

/-! Claim theorems. -/

/-- Claim C5: every persistent-store operation after initialization
(create, get, update, touch, append result, delete, list, cleanup,
counts) absorbs an internal exception and returns its failure value
(`false`, `none`, `[]` or `0`) with the table unchanged, while schema
initialization propagates the exception. -/
theorem claim_c5_store_failures_absorbed (db : DB) (sd : SessionData)
    (id : String) (res : ResultEntry) (now max_age : Int) (limit : Option Nat) :
    DatabaseManager.create_session db sd true = (db, false) ∧
    DatabaseManager.get_session db id true = none ∧
    DatabaseManager.update_session db sd true = (db, false) ∧
    DatabaseManager.update_last_activity db id now true = (db, false) ∧
    DatabaseManager.add_result_to_session db id res now true = (db, false) ∧
    DatabaseManager.delete_session db id true = (db, false) ∧
    DatabaseManager.list_sessions db limit true = [] ∧
    DatabaseManager.cleanup_old_sessions db max_age now true = (db, 0) ∧
    DatabaseManager.get_active_sessions_count db true = 0 ∧
    DatabaseManager.get_processing_sessions_count db true = 0 ∧
    DatabaseManager.init_database true = Except.error DBErr.sqlite :=
  ⟨rfl, rfl, rfl, rfl, rfl, rfl, rfl, rfl, rfl, rfl, rfl⟩

/-- Claim C6: cancelling with no registered task reports `false` and
changes nothing; with a registered task it marks the handle cancelled,
drops the registration and reports `true`, so an immediate second call
reports `false` and changes nothing. -/
theorem claim_c6_cancel_background_task (sys : Sys) (id : String) :
    (sys.tasks.lookup id = none → cancel_background_task sys id = (sys, false)) ∧
    (∀ h, sys.tasks.lookup id = some h →
      (cancel_background_task sys id).2 = true ∧
      (cancel_background_task sys id).1.tasks.lookup id = none ∧
      (cancel_background_task sys id).1.handles
          = sys.handles.set h { cancelled := true } ∧
      cancel_background_task (cancel_background_task sys id).1 id
          = ((cancel_background_task sys id).1, false)) := by
  constructor
  · intro hnone
    exact cancel_background_task_none sys id hnone
  · intro h hsome
    exact ⟨by simp [cancel_background_task, hsome],
      cancel_tasks_lookup_self sys id,
      by simp [cancel_background_task, hsome],
      cancel_background_task_none _ id (cancel_tasks_lookup_self sys id)⟩

/-- Concrete run of claim C6 on a one-task registry and on an empty one. -/
def sysC6 : Sys :=
  { db := [], cache := [], tasks := [("a", 0)],
    handles := [{ cancelled := false }], fs := [] }

/-- Empty-registry system for the C6 witness. -/
def sysC6e : Sys := { db := [], cache := [], tasks := [], handles := [], fs := [] }

/-- Witness for claim C6. -/
theorem claim_c6_witness :
    cancel_background_task sysC6e "a" = (sysC6e, false) ∧
    (cancel_background_task sysC6 "a").2 = true ∧
    (cancel_background_task sysC6 "a").1.tasks.lookup "a" = none ∧
    (cancel_background_task sysC6 "a").1.handles = [{ cancelled := true }] ∧
    cancel_background_task (cancel_background_task sysC6 "a").1 "a"
        = ((cancel_background_task sysC6 "a").1, false) := by
  have h1 := (claim_c6_cancel_background_task sysC6e "a").1 (by decide)
  have h2 := (claim_c6_cancel_background_task sysC6 "a").2 0 (by decide)
  exact ⟨h1, h2.1, h2.2.1, h2.2.2.1.trans (by decide), h2.2.2.2⟩

/-- Claim C7: workspace cleanup clears `is_active`, removes every tracked
temp directory and the root directory, and is idempotent — a second call
on the cleaned-up workspace returns it unchanged. -/
theorem claim_c7_cleanup_idempotent (w : Session) (fs : FS) :
    Session.cleanup (Session.cleanup w fs).1 (Session.cleanup w fs).2
        = Session.cleanup w fs ∧
    (Session.cleanup w fs).1.is_active = false ∧
    (w.is_active = true →
      (Session.cleanup w fs).1 = { w with is_active := false } ∧
      (∀ d ∈ w.temp_dirs, d ∉ (Session.cleanup w fs).2) ∧
      w.output_dir ∉ (Session.cleanup w fs).2) := by
  by_cases hw : w.is_active = true
  · refine ⟨by simp [Session.cleanup, hw], by simp [Session.cleanup, hw], ?_⟩
    intro _
    refine ⟨by simp [Session.cleanup, hw], ?_, ?_⟩
    · intro d hd
      simp only [Session.cleanup, hw, if_true]
      exact not_mem_rmtree_of_not_mem _ _ _
        (not_mem_foldl_rmtree_of_mem w.temp_dirs fs d hd)
    · simp only [Session.cleanup, hw, if_true]
      exact not_mem_rmtree_self _ _
  · have hw' : w.is_active = false := by
      simpa [Bool.not_eq_true] using hw
    refine ⟨by simp [Session.cleanup, hw'], by simp [Session.cleanup, hw'], ?_⟩
    intro hcontra
    exact absurd hcontra hw

/-- Active workspace with one tracked temp directory, for the C7 witness. -/
def wsC7 : Session :=
  { session_id := "s", output_dir := "output/s",
    temp_dirs := ["output/s/t1"], is_active := true }

/-- Filesystem for the C7 witness. -/
def fsC7 : FS := ["output/s", "output/s/t1"]

/-- Witness for claim C7. -/
theorem claim_c7_witness :
    Session.cleanup (Session.cleanup wsC7 fsC7).1 (Session.cleanup wsC7 fsC7).2
        = Session.cleanup wsC7 fsC7 ∧
    (Session.cleanup wsC7 fsC7).1.is_active = false ∧
    "output/s/t1" ∉ (Session.cleanup wsC7 fsC7).2 ∧
    "output/s" ∉ (Session.cleanup wsC7 fsC7).2 := by
  have h := claim_c7_cleanup_idempotent wsC7 fsC7
  have h3 := h.2.2 (by decide)
  exact ⟨h.1, h.2.1, h3.2.1 "output/s/t1" (by decide), h3.2.2⟩

/-- Claim C8: after cleanup (`is_active = false`), `create_temp_dir` and
`get_file_path` raise the workspace-inactive error; while active,
`create_temp_dir` allocates a fresh (previously non-existent)
subdirectory under the root, tracks it and returns its path. -/
theorem claim_c8_workspace_inactive (w : Session) (fs : FS) (pre name : String) :
    (w.is_active = false →
      Session.create_temp_dir w fs pre = Except.error WsErr.inactive ∧
      Session.get_file_path w name = Except.error WsErr.inactive) ∧
    (w.is_active = true →
      Session.create_temp_dir w fs pre
          = Except.ok (w.output_dir ++ "/" ++ pre ++ freshName fs,
              { w with temp_dirs :=
                  w.temp_dirs ++ [w.output_dir ++ "/" ++ pre ++ freshName fs] },
              (w.output_dir ++ "/" ++ pre ++ freshName fs) :: fs) ∧
      (w.output_dir ++ "/" ++ pre ++ freshName fs) ∉ fs) := by
  constructor
  · intro h
    exact ⟨by simp [Session.create_temp_dir, h],
      by simp [Session.get_file_path, h]⟩
  · intro h
    refine ⟨by simp [Session.create_temp_dir, h, mkdtemp], ?_⟩
    simpa [mkdtemp] using mkdtemp_fresh fs w.output_dir pre

/-- Inactive workspace for the C8 witness. -/
def wsC8i : Session :=
  { session_id := "s", output_dir := "output/s", temp_dirs := [], is_active := false }

/-- Active workspace for the C8 witness. -/
def wsC8a : Session :=
  { session_id := "s", output_dir := "output/s", temp_dirs := [], is_active := true }

/-- Witness for claim C8. -/
theorem claim_c8_witness :
    Session.create_temp_dir wsC8i [] "p" = Except.error WsErr.inactive ∧
    Session.get_file_path wsC8i "f.mp4" = Except.error WsErr.inactive ∧
    Session.create_temp_dir wsC8a ["output/s"] "p"
        = Except.ok ("output/s" ++ "/" ++ "p" ++ freshName ["output/s"],
            { wsC8a with temp_dirs :=
                ["output/s" ++ "/" ++ "p" ++ freshName ["output/s"]] },
            ("output/s" ++ "/" ++ "p" ++ freshName ["output/s"]) :: ["output/s"]) ∧
    ("output/s" ++ "/" ++ "p" ++ freshName ["output/s"]) ∉ (["output/s"] : FS) := by
  have hi := (claim_c8_workspace_inactive wsC8i [] "p" "f.mp4").1 rfl
  have ha := (claim_c8_workspace_inactive wsC8a ["output/s"] "p" "x").2 rfl
  exact ⟨hi.1, hi.2, ha.1, ha.2⟩

/-- Claim C3: the store-level TTL sweep deletes exactly the sessions with
`created_at < now - max_age` and returns how many it deleted; a session
created at exactly `now - max_age` is retained. -/
theorem claim_c3_cleanup_old_boundary (db : DB) (max_age now : Int) :
    (∀ sd, sd ∈ (DatabaseManager.cleanup_old_sessions db max_age now false).1 ↔
        sd ∈ db ∧ ¬ sd.created_at < now - max_age) ∧
    (DatabaseManager.cleanup_old_sessions db max_age now false).2
        = (db.filter (fun sd => decide (sd.created_at < now - max_age))).length ∧
    (DatabaseManager.cleanup_old_sessions db max_age now false).2
        + (DatabaseManager.cleanup_old_sessions db max_age now false).1.length
        = db.length ∧
    (∀ sd, sd ∈ db → sd.created_at = now - max_age →
        sd ∈ (DatabaseManager.cleanup_old_sessions db max_age now false).1) := by
  refine ⟨?_, rfl, ?_, ?_⟩
  · intro sd
    simp [DatabaseManager.cleanup_old_sessions, DatabaseManager.cleanup_old_sessionsE,
      List.mem_filter]
  · have h := List.length_eq_length_filter_add
      (l := db) (fun sd => decide (sd.created_at < now - max_age))
    simp only [DatabaseManager.cleanup_old_sessions,
      DatabaseManager.cleanup_old_sessionsE, if_neg (by simp : ¬ (false = true))]
    omega
  · intro sd hmem heq
    simp [DatabaseManager.cleanup_old_sessions, DatabaseManager.cleanup_old_sessionsE,
      List.mem_filter, hmem, heq]

/-- Boundary-time record for the C3 witness: created exactly at the cutoff. -/
def sdC3b : SessionData :=
  { session_id := "b", created_at := 5, status := "active", results := [],
    current_step := "", progress := 0, last_activity := 5, error := none }

/-- Stale record for the C3 witness: created before the cutoff. -/
def sdC3o : SessionData :=
  { session_id := "o", created_at := 0, status := "active", results := [],
    current_step := "", progress := 0, last_activity := 0, error := none }

/-- Witness for claim C3: with `now = 10` and `max_age = 5`, the record
created at 0 is deleted, the record created at exactly 5 is retained, and
the reported count is 1. -/
theorem claim_c3_witness :
    sdC3b ∈ (DatabaseManager.cleanup_old_sessions [sdC3o, sdC3b] 5 10 false).1 ∧
    (sdC3o ∈ (DatabaseManager.cleanup_old_sessions [sdC3o, sdC3b] 5 10 false).1
        → False) ∧
    (DatabaseManager.cleanup_old_sessions [sdC3o, sdC3b] 5 10 false).2 = 1 := by
  have h := claim_c3_cleanup_old_boundary [sdC3o, sdC3b] 5 10
  refine ⟨h.2.2.2 sdC3b (by decide) (by decide), ?_, h.2.1.trans (by decide)⟩
  intro hmem
  have := ((h.1 sdC3o).1 hmem).2
  exact this (by decide)

/-- Completed-status record showing the C9 count divergence. -/
def sdC9 : SessionData :=
  { session_id := "s9", created_at := 0, status := "completed", results := [],
    current_step := "", progress := 100, last_activity := 0, error := none }

/-- System state for the C9 failing input: one persisted session whose
status is "completed or indeed anything other than active". -/
def sysC9 : Sys := { db := [sdC9], cache := [], tasks := [], handles := [], fs := [] }

/-- Claim C9 evaluated at the failing input: the reported
`active_sessions` is the total row count (1), although no persisted
session has status "active" (`SELECT COUNT(*)` in
`get_active_sessions_count` carries no status filter, contradicting its
own docstring); the processing and cached components behave as claimed. -/
theorem claim_c9_active_count_ignores_status :
    (SessionManager.get_session_counts sysC9 false false).active_sessions = 1 ∧
    (sysC9.db.filter (fun sd => sd.status == "active")).length = 0 ∧
    (SessionManager.get_session_counts sysC9 false false).processing_sessions
        = (sysC9.db.filter (fun sd => sd.status == "processing")).length ∧
    (SessionManager.get_session_counts sysC9 false false).cached_sessions
        = sysC9.cache.length := by
  refine ⟨rfl, by decide, rfl, rfl⟩

/-- Claim C10: on an existing session, a status update whose error
argument is `None` or empty sets the persisted status and
`last_activity` and writes the previous error text back verbatim,
leaving every other field unchanged. -/
theorem claim_c10_status_update_preserves_error (sys : Sys) (id status : String)
    (err : Option String) (now : Int) (sd : SessionData)
    (hget : DatabaseManager.get_session sys.db id false = some sd)
    (herr : err = none ∨ err = some "") :
    (SessionManager.update_session_status sys id status err now false false).2
        = true ∧
    DatabaseManager.get_session
        (SessionManager.update_session_status sys id status err now false false).1.db
        id false
      = some { sd with status := status, last_activity := now } := by
  have hfind : sys.db.find? (fun r => r.session_id == id) = some sd := hget
  have hid : sd.session_id = id := by
    have := List.find?_some hfind
    simpa using this
  have hunfold : SessionManager.update_session_status sys id status err now false false
      = ({ sys with db := sys.db.map (DatabaseManager.applyUpdate
            { sd with status := status, last_activity := now }) },
         sys.db.any (fun r =>
           r.session_id == ({ sd with status := status, last_activity := now } :
             SessionData).session_id)) := by
    rcases herr with rfl | rfl <;>
      simp [SessionManager.update_session_status, hget,
        DatabaseManager.update_session, DatabaseManager.update_sessionE]
  rw [hunfold]
  constructor
  · simp only []
    rw [show ({ sd with status := status, last_activity := now } :
        SessionData).session_id = id from hid]
    exact any_of_find?_eq_some hfind
  · simp only [get_session_nofault]
    have hm := find?_map_applyUpdate sys.db
      { sd with status := status, last_activity := now } id sd hfind
    rw [hm]
    unfold DatabaseManager.applyUpdate
    rw [if_pos (by simp [hid])]

/-- Errored record for the C10 witness. -/
def sdC10 : SessionData :=
  { session_id := "s", created_at := 0, status := "error", results := ["r"],
    current_step := "x", progress := -1, last_activity := 3, error := some "boom" }

/-- System state for the C10 witness. -/
def sysC10 : Sys := { db := [sdC10], cache := [], tasks := [], handles := [], fs := [] }

/-- Witness for claim C10: resetting the errored session to "active" with
no error argument keeps the stale error text "boom". -/
theorem claim_c10_witness :
    (SessionManager.update_session_status sysC10 "s" "active" none 7 false false).2
        = true ∧
    DatabaseManager.get_session
        (SessionManager.update_session_status sysC10 "s" "active" none 7
          false false).1.db "s" false
      = some ({ session_id := "s", created_at := 0, status := "active",
                results := ["r"], current_step := "x", progress := -1,
                last_activity := 7, error := some "boom" } : SessionData) := by
  have h := claim_c10_status_update_preserves_error sysC10 "s" "active" none 7
    sdC10 (by decide) (Or.inl rfl)
  exact ⟨h.1, h.2.trans (by decide)⟩

/-- Record with one result, for the C4 counterexample. -/
def sdC4 : SessionData :=
  { session_id := "s4", created_at := 0, status := "processing",
    results := ["clip1"], current_step := "", progress := 10,
    last_activity := 0, error := none }

/-- System state for the C4 counterexample. -/
def sysC4 : Sys := { db := [sdC4], cache := [], tasks := [], handles := [], fs := [] }

/-- Counterexample to claim C4: `update_session_results` — invoked by the
process route as `update_session_results(id, [])` to reset a session for
a new run — replaces a length-1 results list with a length-0 one, so the
persisted results length does decrease. -/
theorem claim_c4_counterexample :
    (SessionManager.get_session_data sysC4 "s4" false).map
        (fun sd => sd.results.length) = some 1 ∧
    (SessionManager.get_session_data
        (SessionManager.update_session_results sysC4 "s4" [] 1 false false).1
        "s4" false).map (fun sd => sd.results.length) = some 0 := by
  exact ⟨by decide, by decide⟩

/-- Claim C4 as amended: the results sequence never shrinks under the
append operation `add_result_to_session` (in any fault condition); it is
only the full-replace `update_session_results` path that can shorten
it. -/
theorem claim_c4_amended_append_monotone (db : DB) (id : String)
    (res : ResultEntry) (now : Int) (fault : Bool) :
    List.Forall₂ (fun a b => a.results.length ≤ b.results.length) db
      (DatabaseManager.add_result_to_session db id res now fault).1 := by
  cases fault with
  | true =>
      exact List.forall₂_same.2 (fun a _ => le_refl _)
  | false =>
      unfold DatabaseManager.add_result_to_session
        DatabaseManager.add_result_to_sessionE
      cases hf : db.find? (fun r => r.session_id == id) with
      | none =>
          simp only [if_neg (by simp : ¬ (false = true)), hf]
          exact List.forall₂_same.2 (fun a _ => le_refl _)
      | some sd =>
          simp only [if_neg (by simp : ¬ (false = true)), hf]
          refine forall₂_map_self _ _ ?_ db
          intro a
          by_cases ha : a.session_id == id
          · simp [ha]
          · simp [ha]

/-- Claim C2: `create_session` fails exactly when the store insert fails
(fault or duplicate id); on failure the table and cache are unchanged and
the new workspace directory has been torn down again, on success the
record is persisted and the workspace cached; in either case no session
is cached without a persisted record. -/
theorem claim_c2_create_session_ordering (sys : Sys) (id : String) (now : Int)
    (fault : Bool)
    (hinv : ∀ k w, sys.cache.lookup k = some w →
        sys.db.any (fun r0 => r0.session_id == k) = true) :
    ((SessionManager.create_session sys id now fault).2 = none ↔
        (fault = true ∨ sys.db.any (fun r0 => r0.session_id == id) = true)) ∧
    ((SessionManager.create_session sys id now fault).2 = none →
        (SessionManager.create_session sys id now fault).1.db = sys.db ∧
        (SessionManager.create_session sys id now fault).1.cache = sys.cache ∧
        (BASE_OUTPUT_DIR ++ "/" ++ id)
            ∉ (SessionManager.create_session sys id now fault).1.fs) ∧
    ((SessionManager.create_session sys id now fault).2 = some id →
        (SessionManager.create_session sys id now fault).1.db
            = sys.db ++ [SessionManager.newRecord id now] ∧
        (SessionManager.create_session sys id now fault).1.cache.lookup id
            = some (Session.init id sys.fs).1 ∧
        (BASE_OUTPUT_DIR ++ "/" ++ id)
            ∈ (SessionManager.create_session sys id now fault).1.fs) ∧
    (∀ k w,
        (SessionManager.create_session sys id now fault).1.cache.lookup k = some w →
        (SessionManager.create_session sys id now fault).1.db.any
            (fun r0 => r0.session_id == k) = true) := by
  by_cases hf : fault = true
  · subst hf
    have hres : SessionManager.create_session sys id now true
        = ({ sys with
             db := sys.db
             fs := rmtree (os_makedirs sys.fs (BASE_OUTPUT_DIR ++ "/" ++ id))
               (BASE_OUTPUT_DIR ++ "/" ++ id) }, none) := by
      simp [SessionManager.create_session, DatabaseManager.create_session,
        DatabaseManager.create_sessionE, Session.init, Session.cleanup]
    refine ⟨by simp [hres], ?_, by simp [hres], ?_⟩
    · intro _
      exact ⟨by simp [hres], by simp [hres],
        by simp only [hres]; exact not_mem_rmtree_self _ _⟩
    · intro k w hk
      simp only [hres] at hk ⊢
      exact hinv k w hk
  · by_cases hd : sys.db.any (fun r0 => r0.session_id == id) = true
    · have hd' : sys.db.any
          (fun r0 => r0.session_id == (SessionManager.newRecord id now).session_id)
            = true := hd
      have hres : SessionManager.create_session sys id now fault
          = ({ sys with
               db := sys.db
               fs := rmtree (os_makedirs sys.fs (BASE_OUTPUT_DIR ++ "/" ++ id))
                 (BASE_OUTPUT_DIR ++ "/" ++ id) }, none) := by
        simp [SessionManager.create_session, DatabaseManager.create_session,
          DatabaseManager.create_sessionE, hf, hd', Session.init, Session.cleanup]
      refine ⟨by simp [hres, hd], ?_, by simp [hres], ?_⟩
      · intro _
        exact ⟨by simp [hres], by simp [hres],
          by simp only [hres]; exact not_mem_rmtree_self _ _⟩
      · intro k w hk
        simp only [hres] at hk ⊢
        exact hinv k w hk
    · have hf' : fault = false := by simpa [Bool.not_eq_true] using hf
      subst hf'
      have hd' : sys.db.any
          (fun r0 => r0.session_id == (SessionManager.newRecord id now).session_id)
            = false := by
        simpa [Bool.not_eq_true] using hd
      have hres : SessionManager.create_session sys id now false
          = ({ sys with
               db := sys.db ++ [SessionManager.newRecord id now]
               fs := os_makedirs sys.fs (BASE_OUTPUT_DIR ++ "/" ++ id)
               cache := (id, (Session.init id sys.fs).1) :: eraseKey sys.cache id },
             some id) := by
        simp [SessionManager.create_session, DatabaseManager.create_session,
          DatabaseManager.create_sessionE, hd', Session.init]
      refine ⟨by simp [hres, hd], by simp [hres], ?_, ?_⟩
      · intro _
        refine ⟨by simp [hres], by simp [hres, List.lookup], ?_⟩
        simp only [hres]
        exact mem_os_makedirs_self _ _
      · intro k w hk
        simp only [hres] at hk ⊢
        by_cases hki : k = id
        · subst hki
          rw [List.any_append]
          simp [SessionManager.newRecord]
        · have hk' : sys.cache.lookup k = some w := by
            have hkl : (k == id) = false := by
              simp only [beq_eq_false_iff_ne]
              exact hki
            rw [List.lookup, hkl] at hk
            rwa [lookup_eraseKey_ne sys.cache id k hki] at hk
          rw [List.any_append]
          simp [hinv k w hk']

/-- Fresh-system state for the C2 witness. -/
def sysC2 : Sys := { db := [], cache := [], tasks := [], handles := [], fs := [] }

/-- Witness for claim C2: on an empty system a create succeeds, persists
the record, caches the workspace and creates the directory; the same
create under an injected store fault reports failure and leaves no
directory behind. -/
theorem claim_c2_witness :
    (SessionManager.create_session sysC2 "s1" 0 false).1.db
        = [SessionManager.newRecord "s1" 0] ∧
    (SessionManager.create_session sysC2 "s1" 0 false).1.cache.lookup "s1"
        = some (Session.init "s1" sysC2.fs).1 ∧
    (BASE_OUTPUT_DIR ++ "/" ++ "s1")
        ∈ (SessionManager.create_session sysC2 "s1" 0 false).1.fs ∧
    (SessionManager.create_session sysC2 "s1" 0 true).2 = none ∧
    (SessionManager.create_session sysC2 "s1" 0 true).1.cache = sysC2.cache ∧
    (BASE_OUTPUT_DIR ++ "/" ++ "s1")
        ∉ (SessionManager.create_session sysC2 "s1" 0 true).1.fs := by
  have hinv : ∀ k w, sysC2.cache.lookup k = some w →
      sysC2.db.any (fun r0 => r0.session_id == k) = true := by
    intro k w hk
    simp [sysC2, List.lookup] at hk
  have hs := claim_c2_create_session_ordering sysC2 "s1" 0 false hinv
  have hf := claim_c2_create_session_ordering sysC2 "s1" 0 true hinv
  have hsucc := hs.2.2.1 (by decide)
  have hfail := hf.2.1 (hf.1.2 (Or.inl rfl))
  exact ⟨hsucc.1.trans (by decide), hsucc.2.1, hsucc.2.2,
    hf.1.2 (Or.inl rfl), hfail.2.1, hfail.2.2⟩

/-- Record persisted for the C1 counterexample: a session that survives in
the store while its workspace object is no longer cached (the state after
a process restart). -/
def sdC1 : SessionData :=
  { session_id := "s1", created_at := 0, status := "active", results := [],
    current_step := "", progress := 0, last_activity := 0, error := none }

/-- System state for the C1 counterexample: record persisted, workspace
directory on disk, cache empty. -/
def sysC1 : Sys :=
  { db := [sdC1], cache := [], tasks := [], handles := [], fs := ["output/s1"] }

/-- Counterexample to claim C1 as stated: when the workspace is not in the
in-memory cache, the cleanup route reports success and the record is gone,
yet the workspace root directory still exists afterwards. -/
theorem claim_c1_counterexample :
    (api_cleanup_session sysC1 "s1" false false).2 = some true ∧
    SessionManager.session_exists
        (api_cleanup_session sysC1 "s1" false false).1 "s1" false = false ∧
    "output/s1" ∈ (api_cleanup_session sysC1 "s1" false false).1.fs := by
  exact ⟨by decide, by decide, by decide⟩

/-- Claim C1 as amended: on an existing session, the cleanup route cancels
any registered task, evicts and cleans the cached workspace, and deletes
the persisted record; the reported success equals whether the record was
deleted (an injected store fault on the delete yields `some false` with
the record surviving); afterwards the session no longer exists, and the
workspace root directory is gone provided the workspace object was in the
in-memory cache (and active). -/
theorem claim_c1_amended_cleanup (sys : Sys) (id : String)
    (hex : SessionManager.session_exists sys id false = true) :
    (api_cleanup_session sys id false false).2 = some true ∧
    SessionManager.session_exists
        (api_cleanup_session sys id false false).1 id false = false ∧
    (api_cleanup_session sys id false false).1.cache.lookup id = none ∧
    (api_cleanup_session sys id false false).1.tasks.lookup id = none ∧
    (∀ w, sys.cache.lookup id = some w → w.is_active = true →
        w.output_dir ∉ (api_cleanup_session sys id false false).1.fs) ∧
    (∀ h, sys.tasks.lookup id = some h → h < sys.handles.length →
        ((api_cleanup_session sys id false false).1.handles.getD h
            { cancelled := false }).cancelled = true) ∧
    (api_cleanup_session sys id false true).2 = some false ∧
    SessionManager.session_exists
        (api_cleanup_session sys id false true).1 id false = true := by
  have hfind : ∃ sd, sys.db.find? (fun r => r.session_id == id) = some sd := by
    have hx := hex
    simp only [SessionManager.session_exists, get_session_nofault,
      Option.isSome_iff_exists] at hx
    exact hx
  obtain ⟨sd, hsd⟩ := hfind
  have hany : sys.db.any (fun r => r.session_id == id) = true :=
    any_of_find?_eq_some hsd
  have hc := cancel_preserves sys id
  have hapi : api_cleanup_session sys id false false
      = ((SessionManager.cleanup_session (cancel_background_task sys id).1 id
            false).1,
         some (SessionManager.cleanup_session (cancel_background_task sys id).1 id
            false).2) := by
    simp [api_cleanup_session, hex]
  have hapiF : api_cleanup_session sys id false true
      = ((SessionManager.cleanup_session (cancel_background_task sys id).1 id
            true).1,
         some (SessionManager.cleanup_session (cancel_background_task sys id).1 id
            true).2) := by
    simp [api_cleanup_session, hex]
  refine ⟨?_, ?_, ?_, ?_, ?_, ?_, ?_, ?_⟩
  · rw [hapi]
    simp only [cleanup_session_verdict, hc.1, hany]
  · rw [hapi]
    simp only [SessionManager.session_exists, get_session_nofault,
      cleanup_session_db, hc.1, find?_filter_not, Option.isSome_none]
  · rw [hapi]
    exact cleanup_session_cache_lookup _ id false
  · rw [hapi]
    rw [(cleanup_session_tasks _ id false).1]
    exact cancel_tasks_lookup_self sys id
  · intro w hw hact
    rw [hapi]
    have hw' : (cancel_background_task sys id).1.cache.lookup id = some w := by
      rw [hc.2.1]; exact hw
    rw [cleanup_session_fs_cached _ id false w hw', hc.2.2]
    simp only [Session.cleanup, hact, if_true]
    exact not_mem_rmtree_self _ _
  · intro h hh hlen
    rw [hapi]
    rw [(cleanup_session_tasks _ id false).2]
    have hh' : (cancel_background_task sys id).1.handles
        = sys.handles.set h { cancelled := true } := by
      simp [cancel_background_task, hh]
    rw [hh']
    simp [List.getD_eq_getElem?_getD, List.getElem?_set_self, hlen]
  · rw [hapiF]
    simp only [(cleanup_session_fault _ id).1]
  · rw [hapiF]
    simp only [SessionManager.session_exists, get_session_nofault,
      (cleanup_session_fault _ id).2, hc.1, hsd, Option.isSome_some]

/-- Record persisted for the C1 amended witness. -/
def sdC1w : SessionData :=
  { session_id := "s2", created_at := 0, status := "processing", results := [],
    current_step := "", progress := 5, last_activity := 0, error := none }

/-- Cached active workspace for the C1 amended witness. -/
def wsC1 : Session :=
  { session_id := "s2", output_dir := "output/s2", temp_dirs := [],
    is_active := true }

/-- System state for the C1 amended witness: record persisted, workspace
cached and on disk, one registered background task. -/
def sysC1w : Sys :=
  { db := [sdC1w], cache := [("s2", wsC1)], tasks := [("s2", 0)],
    handles := [{ cancelled := false }], fs := ["output/s2"] }

/-- Witness for claim C1 as amended. -/
theorem claim_c1_amended_witness :
    (api_cleanup_session sysC1w "s2" false false).2 = some true ∧
    SessionManager.session_exists
        (api_cleanup_session sysC1w "s2" false false).1 "s2" false = false ∧
    (api_cleanup_session sysC1w "s2" false false).1.cache.lookup "s2" = none ∧
    (api_cleanup_session sysC1w "s2" false false).1.tasks.lookup "s2" = none ∧
    "output/s2" ∉ (api_cleanup_session sysC1w "s2" false false).1.fs ∧
    ((api_cleanup_session sysC1w "s2" false false).1.handles.getD 0
        { cancelled := false }).cancelled = true ∧
    (api_cleanup_session sysC1w "s2" false true).2 = some false := by
  have h := claim_c1_amended_cleanup sysC1w "s2" (by decide)
  exact ⟨h.1, h.2.1, h.2.2.1, h.2.2.2.1,
    h.2.2.2.2.1 wsC1 (by decide) rfl,
    h.2.2.2.2.2.1 0 (by decide) (by decide),
    h.2.2.2.2.2.2.1⟩

end TC
